import Mathlib

/-!
Verification of the device test orchestration engine (`sdk.py`, `monkey.py`).

The Python source is shallowly embedded: each embedded definition mirrors one
function of the source, with external effects (adb invocations, the clock, the
filesystem, the database) abstracted as oracles or event traces.
-/

namespace Monkey

/-! ## Bounded command execution and the retry wrapper (`sdk.adb_call`,
`sdk.adb_call_timeout`, `sdk.adb_shell`) -/

/-- Outcome of one underlying adb invocation: normal completion with captured
output, abnormal exit (the exception is caught inside `adb_call`, which then
returns `None`), or a wall-clock timeout (the child is terminated by
`adb_call_timeout`). -/
inductive Outcome where
  | ok (out : String)
  | error
  | timeout
  deriving DecidableEq, Repr

/-- The `(success, ret)` pair produced by `adb_call_timeout` for one attempt:
`success` is `False` only on a timeout; an abnormal exit is reported as
`(True, None)` because `adb_call` swallows the exception and returns `None`. -/
def adb_call_timeout_result : Outcome → Bool × Option String
  | .ok out => (true, some out)
  | .error => (true, none)
  | .timeout => (false, none)

/-- The `while not success and retry_limit > 0` loop of `adb_shell`.
`f` gives the outcome of each successive underlying attempt, `cur` is the
result of the most recent attempt, `i` counts attempts made so far, and
`fuel` is the remaining `retry_limit`.  Returns the final `(success, ret)`
pair together with the total number of attempts made. -/
def adb_shell_go (f : Nat → Outcome) : Bool × Option String → Nat → Nat →
    (Bool × Option String) × Nat
  | cur, i, 0 => (cur, i)
  | cur, i, fuel + 1 =>
    if cur.1 then (cur, i)
    else adb_shell_go f (adb_call_timeout_result (f i)) (i + 1) fuel

/-- `adb_shell(*args, timeout_secs, retry_limit)`: one initial attempt, then
the retry loop.  `f i` is the outcome of attempt number `i` (0-based). -/
def adb_shell (f : Nat → Outcome) (retry_limit : Nat) :
    (Bool × Option String) × Nat :=
  adb_shell_go f (adb_call_timeout_result (f 0)) 1 retry_limit

lemma adb_shell_go_attempts_le (f : Nat → Outcome) :
    ∀ (fuel : Nat) (cur : Bool × Option String) (i : Nat),
      i ≤ (adb_shell_go f cur i fuel).2 ∧
      (adb_shell_go f cur i fuel).2 ≤ i + fuel := by
  intro fuel
  induction fuel with
  | zero => intro cur i; simp [adb_shell_go]
  | succ fuel ih =>
    intro cur i
    rw [adb_shell_go]
    rcases Bool.eq_false_or_eq_true cur.1 with h | h
    · simp [h]
    · simp only [h, Bool.false_eq_true, if_false]
      have h2 := ih (adb_call_timeout_result (f i)) (i + 1)
      omega

lemma adb_shell_go_result (f : Nat → Outcome) :
    ∀ (fuel : Nat) (cur : Bool × Option String) (i : Nat),
      1 ≤ i → cur = adb_call_timeout_result (f (i - 1)) →
      (adb_shell_go f cur i fuel).1 =
        adb_call_timeout_result (f ((adb_shell_go f cur i fuel).2 - 1)) := by
  intro fuel
  induction fuel with
  | zero => intro cur i _ hcur; simpa [adb_shell_go] using hcur
  | succ fuel ih =>
    intro cur i hi hcur
    rw [adb_shell_go]
    rcases Bool.eq_false_or_eq_true cur.1 with h | h
    · simpa [h] using hcur
    · simp only [h, Bool.false_eq_true, if_false]
      exact ih (adb_call_timeout_result (f i)) (i + 1) (by omega) (by simp)

lemma adb_shell_go_timeouts (f : Nat → Outcome) :
    ∀ (fuel : Nat) (cur : Bool × Option String) (i : Nat),
      1 ≤ i → cur = adb_call_timeout_result (f (i - 1)) →
      (∀ j, j + 1 < i → f j = .timeout) →
      ∀ j, j + 1 < (adb_shell_go f cur i fuel).2 → f j = .timeout := by
  intro fuel
  induction fuel with
  | zero =>
    intro cur i _ _ hpre
    simpa [adb_shell_go] using hpre
  | succ fuel ih =>
    intro cur i hi hcur hpre
    rw [adb_shell_go]
    rcases Bool.eq_false_or_eq_true cur.1 with h | h
    · simpa [h] using hpre
    · simp only [h, Bool.false_eq_true, if_false]
      refine ih (adb_call_timeout_result (f i)) (i + 1) (by omega) (by simp) ?_
      intro j hj
      rcases Nat.lt_or_ge (j + 1) i with hj' | hj'
      · exact hpre j hj'
      · have hji : j = i - 1 := by omega
        subst hji
        rw [hcur] at h
        cases hout : f (i - 1)
        · rw [hout] at h; simp [adb_call_timeout_result] at h
        · rw [hout] at h; simp [adb_call_timeout_result] at h
        · rfl

lemma adb_shell_go_exhaust (f : Nat → Outcome) :
    ∀ (fuel : Nat) (cur : Bool × Option String) (i : Nat),
      ((adb_shell_go f cur i fuel).1).1 = false →
      (adb_shell_go f cur i fuel).2 = i + fuel := by
  intro fuel
  induction fuel with
  | zero => intro cur i _; simp [adb_shell_go]
  | succ fuel ih =>
    intro cur i hfail
    rw [adb_shell_go] at hfail ⊢
    rcases Bool.eq_false_or_eq_true cur.1 with h | h
    · simp [h] at hfail
    · simp only [h, Bool.false_eq_true, if_false] at hfail ⊢
      have h2 := ih (adb_call_timeout_result (f i)) (i + 1) hfail
      omega

/-- `C1` (amended): for every outcome sequence `f` and retry budget `R`,
`adb_shell` makes between 1 and `R + 1` attempts, returns the
`(success, ret)` pair of the final attempt, every attempt before the final
one timed out (so it retries exactly on TIMEOUT and stops as soon as an
attempt completes without timing out — on OK, but also on ERROR, which is
reported as `(True, None)` and not retried), and a final failing status
means the whole budget was spent. -/
theorem adb_shell_retry_spec (f : Nat → Outcome) (R : Nat) :
    1 ≤ (adb_shell f R).2 ∧
    (adb_shell f R).2 ≤ R + 1 ∧
    (adb_shell f R).1 = adb_call_timeout_result (f ((adb_shell f R).2 - 1)) ∧
    (∀ j, j + 1 < (adb_shell f R).2 → f j = .timeout) ∧
    (((adb_shell f R).1).1 = false → (adb_shell f R).2 = R + 1) := by
  unfold adb_shell
  have hle := adb_shell_go_attempts_le f R (adb_call_timeout_result (f 0)) 1
  refine ⟨by omega, by omega, ?_, ?_, ?_⟩
  · exact adb_shell_go_result f R _ 1 (by omega) (by simp)
  · exact adb_shell_go_timeouts f R _ 1 (by omega) (by simp) (by omega)
  · intro hfail
    have := adb_shell_go_exhaust f R (adb_call_timeout_result (f 0)) 1 hfail
    omega

/-- Outcome sequence whose first attempt is an ERROR and whose later attempts
would succeed: used to show `adb_shell` does not retry on ERROR. -/
def errorFirst : Nat → Outcome :=
  fun i => if i = 0 then .error else .ok "ok"

/-- `C1` counterexample: with retry budget 5 and a first attempt ending in
ERROR (abnormal exit), `adb_shell` makes exactly one attempt and returns
`(True, None)` — it does not repeat the command on an ERROR outcome, contrary
to the claim (which would require a second attempt, returning the OK outcome
of that attempt). -/
theorem adb_shell_no_retry_on_error :
    errorFirst 0 = .error ∧ errorFirst 1 = .ok "ok" ∧
    adb_shell errorFirst 5 = ((true, none), 1) := by
  refine ⟨rfl, rfl, ?_⟩
  rfl

/-- `C1` witness: the amended theorem applied at a concrete input — with every
attempt timing out and budget 2, attempt 1 (which is followed by another
attempt) indeed timed out. -/
theorem adb_shell_retry_spec_witness :
    (fun _ : Nat => Outcome.timeout) 1 = .timeout :=
  (adb_shell_retry_spec (fun _ => Outcome.timeout) 2).2.2.2.1 1 (by decide)

/-! ## `uninstallAll` and the allow-list (`sdk.dont_uninstall`,
`sdk.adb_uninstall_all`) -/

/-- The fixed allow-list of package ids that `adb_uninstall_all` must never
remove (`sdk.dont_uninstall`, a Python `set` literal). -/
def dont_uninstall : List String := [
    "android",
    "com.android.apps.tag",
    "com.android.backupconfirm",
    "com.android.bluetooth",
    "com.android.bluetoothmidiservice",
    "com.android.bookmarkprovider",
    "com.android.calculator2",
    "com.android.calendar",
    "com.android.calllogbackup",
    "com.android.camera2",
    "com.android.captiveportallogin",
    "com.android.carrierconfig",
    "com.android.certinstaller",
    "com.android.contacts",
    "com.android.defcontainer",
    "com.android.deskclock",
    "com.android.dialer",
    "com.android.documentsui",
    "com.android.dreams.basic",
    "com.android.dreams.phototable",
    "com.android.email",
    "com.android.externalstorage",
    "com.android.gallery3d",
    "com.android.hotwordenrollment",
    "com.android.htmlviewer",
    "com.android.inputdevices",
    "com.android.inputmethod.latin",
    "com.android.keychain",
    "com.android.launcher3",
    "com.android.location.fused",
    "com.android.managedprovisioning",
    "com.android.messaging",
    "com.android.mms.service",
    "com.android.music",
    "com.android.musicfx",
    "com.android.nfc",
    "com.android.omadm.service",
    "com.android.onetimeinitializer",
    "com.android.pacprocessor",
    "com.android.phone",
    "com.android.printspooler",
    "com.android.providers.calendar",
    "com.android.providers.contacts",
    "com.android.providers.downloads",
    "com.android.providers.downloads.ui",
    "com.android.providers.media",
    "com.android.providers.settings",
    "com.android.providers.telephony",
    "com.android.providers.userdictionary",
    "com.android.proxyhandler",
    "com.android.quicksearchbox",
    "com.android.sdm.plugins.connmo",
    "com.android.sdm.plugins.dcmo",
    "com.android.sdm.plugins.diagmon",
    "com.android.sdm.plugins.sprintdm",
    "com.android.server.telecom",
    "com.android.settings",
    "com.android.sharedstoragebackup",
    "com.android.shell",
    "com.android.smspush",
    "com.android.statementservice",
    "com.android.systemui",
    "com.android.vending",
    "com.android.vpndialogs",
    "com.android.wallpaper.livepicker",
    "com.android.wallpapercropper",
    "com.android.webview",
    "com.google.android.backuptransport",
    "com.google.android.feedback",
    "com.google.android.gms",
    "com.google.android.gsf",
    "com.google.android.gsf.login",
    "com.google.android.instantapps.supervisor",
    "com.google.android.launcher.layouts.bullhead",
    "com.google.android.onetimeinitializer",
    "com.google.android.packageinstaller",
    "com.google.android.partnersetup",
    "com.google.android.play.games",
    "com.google.android.setupwizard",
    "com.google.android.syncadapters.calendar",
    "com.google.android.syncadapters.contacts",
    "com.google.android.tts",
    "com.lexa.fakegps",
    "com.lge.HiddenMenu",
    "com.lge.lifetimer",
    "com.qualcomm.atfwd",
    "com.qualcomm.qcrilmsgtunnel",
    "com.qualcomm.qti.rcsbootstraputil",
    "com.qualcomm.qti.rcsimsbootstraputil",
    "com.qualcomm.timeservice",
    "com.quicinc.cne.CNEService",
    "com.svox.pico",
    "com.verizon.omadm",
    "edu.berkeley.icsi.devfilegen",
    "edu.berkeley.icsi.haystack",
    "jp.co.omronsoft.openwnn",
    "org.chromium.webview_shell"]

/-- Parsing of a successful `pm list packages` output inside
`adb_uninstall_all`: split on newlines, keep nonempty lines, strip the
`package:` marker (Python `str.replace` removes every occurrence). -/
def pm_list_parse (packages : String) : List String :=
  ((packages.splitOn "\n").filter (fun x => x.length > 0)).map
    (fun x => x.replace "package:" "")

/-- The set of packages `adb_uninstall_all` issues `adb uninstall` commands
for: the parsed installed set minus `dont_uninstall` (each member is
uninstalled once; Python iterates over the set difference, so we deduplicate
the parsed list). -/
def adb_uninstall_all_targets (packages : String) : List String :=
  ((pm_list_parse packages).dedup).filter
    (fun x => decide (x ∉ dont_uninstall))

/-- `C2`: for every installed-package listing, the packages `uninstallAll`
issues an uninstall for are exactly the listed set minus the allow-list, and
in particular no allow-list member is ever uninstalled. -/
theorem adb_uninstall_all_spec (packages : String) (p : String) :
    (p ∈ adb_uninstall_all_targets packages ↔
      (p ∈ pm_list_parse packages ∧ p ∉ dont_uninstall)) ∧
    (p ∈ dont_uninstall → p ∉ adb_uninstall_all_targets packages) := by
  constructor
  · simp [adb_uninstall_all_targets, List.mem_filter, List.mem_dedup]
  · intro hp hmem
    simp [adb_uninstall_all_targets, List.mem_filter, List.mem_dedup] at hmem
    exact hmem.2 hp

/-- `C2` witness: the theorem applied at a concrete listing containing the
allow-list member `android`: it is not uninstalled. -/
theorem adb_uninstall_all_spec_witness :
    "android" ∉
      adb_uninstall_all_targets "package:android\npackage:com.example.game" :=
  (adb_uninstall_all_spec "package:android\npackage:com.example.game"
      "android").2 (by decide)


/-! ## The test run `monkey.monkey` (run directory creation, install
verification, and the try/except/finally boundary) -/

/-- Python exceptions relevant to `monkey()`: `subprocess.CalledProcessError`
(the only class caught by the `except` clause), `AssertionError` (raised by
failing `assert` statements), and any other `Exception`. -/
inductive PyExc where
  | calledProcessError (msg : String)
  | assertionError (msg : String)
  | otherError (msg : String)
  deriving DecidableEq, Repr

/-- Whether an exception matches the `except subprocess.CalledProcessError`
clause. -/
def PyExc.isCalledProcessError : PyExc → Bool
  | .calledProcessError _ => true
  | _ => false

/-- Message carried by an exception (`str(e)`). -/
def PyExc.msg : PyExc → String
  | .calledProcessError m => m
  | .assertionError m => m
  | .otherError m => m

/-- Observable events of one `monkey()` invocation, in program order. -/
inductive Ev where
  | mkdirParent                 -- `os.makedirs(outdir/<package>/<version>)`
  | mkdirRun                    -- `os.makedirs(.../test-<timestamp>)`
  | openLog                     -- open the log file, redirect stdout
  | printPerms                  -- print declared permissions
  | clearLogs                   -- `sdk.adb_clear_logs()`
  | devFile                     -- `sdk.adb_get_dev_file(...)`
  | installCmd (reported_ok : Bool)  -- `sdk.adb_install(apk)`; the reported
                                     -- outcome is recorded but never inspected
  | verifyQuery                 -- `sdk.adb_package_installed(package)` query
  | clearScreen                 -- `sdk.adb_clear_screen()`
  | startLumen                  -- `sdk.adb_start_lumen()`
  | logLine (tag msg : String)  -- `sdk.log(tag, msg)`
  | showLogs                    -- `sdk.adb_show_logs()` (dump device logs)
  | restoreStdout               -- `sys.stdout = orig_sysout`
  | closeLog                    -- `f.close()`
  deriving DecidableEq, Repr

/-- Shallow embedding of `monkey(config, apk, outdir, ...)`.

Inputs abstract the environment: `parent_exists` is whether
`outdir/<package>/<version>` already exists, `run_exists` whether the
timestamped run directory already exists, `install_ok` the outcome reported
by the `adb install` command (discarded by the source), `pkg_installed` the
result of the post-install `pm list packages` query, and `(body, bodyTr)` the
outcome and event trace of the phase code inside the `try` block (app launch,
initial screenshots, fuzz loop, uninstall/teardown, compression).

Returns the propagated exception (if any) together with the event trace. -/
def monkey_model (parent_exists run_exists print_to_file skip_install : Bool)
    (install_ok pkg_installed : Bool) (body : Except PyExc Unit)
    (bodyTr : List Ev) (package : String) : Except PyExc Unit × List Ev :=
  let tr0 : List Ev := if parent_exists then [] else [Ev.mkdirParent]
  if run_exists then
    -- `assert not os.path.exists(data_dir)` fails: nothing else runs
    (Except.error (PyExc.assertionError "dir exists"), tr0)
  else
    let tr1 : List Ev := tr0 ++ [Ev.mkdirRun] ++
      (if print_to_file then [Ev.openLog] else []) ++
      [Ev.printPerms, Ev.clearLogs, Ev.devFile] ++
      (if skip_install then [] else [Ev.installCmd install_ok]) ++
      [Ev.verifyQuery]
    if pkg_installed = false then
      -- `assert sdk.adb_package_installed(package)` fails
      (Except.error (PyExc.assertionError "not installed"), tr1)
    else
      let tr2 : List Ev := tr1 ++ [Ev.clearScreen, Ev.startLumen]
      -- try: phases, then `sdk.log('SUCCESS', package)`
      let afterTry : Except PyExc Unit × List Ev :=
        match body with
        | Except.ok _ => (Except.ok (), bodyTr ++ [Ev.logLine "SUCCESS" package])
        | Except.error e =>
          -- except subprocess.CalledProcessError: `sdk.log('CRASH', str(e))`
          if e.isCalledProcessError then
            (Except.ok (), bodyTr ++ [Ev.logLine "CRASH" e.msg])
          else
            (Except.error e, bodyTr)
      -- finally: dump device logs, then restore stdout and close the file
      let trFin : List Ev := [Ev.showLogs] ++
        (if print_to_file then [Ev.restoreStdout, Ev.closeLog] else [])
      (afterTry.1, tr2 ++ afterTry.2 ++ trFin)

/-- `C3`: provided the run reaches the `try` block (the run directory was
fresh and install verification passed), then for EVERY outcome of the
app-launch/initial-capture/fuzz/teardown code: the device logs are dumped and
(when stdout was redirected) stdout is restored and the log file closed, on
the normal path, the caught path and the propagating path alike; a
command-level failure (`subprocess.CalledProcessError`) is caught at the
`monkey()` boundary, the run is marked CRASH and nothing propagates; any
other exception still propagates (after the finalize step ran). -/
theorem monkey_finalize_spec (parent_exists print_to_file skip_install
    install_ok : Bool) (body : Except PyExc Unit) (bodyTr : List Ev)
    (package : String) :
    Ev.showLogs ∈ (monkey_model parent_exists false print_to_file skip_install
        install_ok true body bodyTr package).2 ∧
    (print_to_file = true →
      Ev.restoreStdout ∈ (monkey_model parent_exists false print_to_file
          skip_install install_ok true body bodyTr package).2 ∧
      Ev.closeLog ∈ (monkey_model parent_exists false print_to_file
          skip_install install_ok true body bodyTr package).2) ∧
    (∀ m, body = Except.error (PyExc.calledProcessError m) →
      (monkey_model parent_exists false print_to_file skip_install install_ok
          true body bodyTr package).1 = Except.ok () ∧
      Ev.logLine "CRASH" m ∈ (monkey_model parent_exists false print_to_file
          skip_install install_ok true body bodyTr package).2) ∧
    (body = Except.ok () →
      (monkey_model parent_exists false print_to_file skip_install install_ok
          true body bodyTr package).1 = Except.ok ()) ∧
    (∀ e, body = Except.error e → e.isCalledProcessError = false →
      (monkey_model parent_exists false print_to_file skip_install install_ok
          true body bodyTr package).1 = Except.error e) := by
  refine ⟨?_, ?_, ?_, ?_, ?_⟩
  · cases body with
    | ok u => simp [monkey_model]
    | error e =>
      by_cases hc : e.isCalledProcessError <;> simp [monkey_model, hc]
  · intro hp
    subst hp
    cases body with
    | ok u => simp [monkey_model]
    | error e =>
      by_cases hc : e.isCalledProcessError <;> simp [monkey_model, hc]
  · intro m hb
    subst hb
    simp [monkey_model, PyExc.isCalledProcessError, PyExc.msg]
  · intro hb
    subst hb
    simp [monkey_model]
  · intro e hb hc
    subst hb
    simp [monkey_model, hc]

/-- `C3` witness: the theorem applied at a concrete input where the fuzz
phase raised a `CalledProcessError`: the exception is caught, the run is
marked CRASH, and the device-log dump, stdout restore and log close all
happen. -/
theorem monkey_finalize_spec_witness :
    (monkey_model true false true false true true
        (Except.error (PyExc.calledProcessError "boom")) [] "com.example").1 =
      Except.ok () ∧
    Ev.logLine "CRASH" "boom" ∈ (monkey_model true false true false true true
        (Except.error (PyExc.calledProcessError "boom")) [] "com.example").2 ∧
    Ev.showLogs ∈ (monkey_model true false true false true true
        (Except.error (PyExc.calledProcessError "boom")) [] "com.example").2 ∧
    Ev.restoreStdout ∈ (monkey_model true false true false true true
        (Except.error (PyExc.calledProcessError "boom")) [] "com.example").2 ∧
    Ev.closeLog ∈ (monkey_model true false true false true true
        (Except.error (PyExc.calledProcessError "boom")) [] "com.example").2 := by
  have h := monkey_finalize_spec true true false true
    (Except.error (PyExc.calledProcessError "boom")) [] "com.example"
  have hcpe := h.2.2.1 "boom" rfl
  have hfin := h.2.1 rfl
  exact ⟨hcpe.1, hcpe.2, h.1, hfin.1, hfin.2⟩

/-- `C8`: when the post-install package-list query does not report the target
package (for every reported install-command outcome, including success), the
`assert sdk.adb_package_installed(package)` fails: an `AssertionError`
propagates, the verification query is in the trace, and no later phase of the
run (screen clearing, capture tool start, app launch/fuzz body, teardown,
finalize) has executed. -/
theorem monkey_install_verification_spec (parent_exists print_to_file
    skip_install install_ok : Bool) (body : Except PyExc Unit)
    (bodyTr : List Ev) (package : String) :
    (monkey_model parent_exists false print_to_file skip_install install_ok
        false body bodyTr package).1 =
      Except.error (PyExc.assertionError "not installed") ∧
    Ev.verifyQuery ∈ (monkey_model parent_exists false print_to_file
        skip_install install_ok false body bodyTr package).2 ∧
    Ev.clearScreen ∉ (monkey_model parent_exists false print_to_file
        skip_install install_ok false body bodyTr package).2 ∧
    Ev.startLumen ∉ (monkey_model parent_exists false print_to_file
        skip_install install_ok false body bodyTr package).2 ∧
    Ev.showLogs ∉ (monkey_model parent_exists false print_to_file
        skip_install install_ok false body bodyTr package).2 ∧
    (∀ tag msg, Ev.logLine tag msg ∉ (monkey_model parent_exists false
        print_to_file skip_install install_ok false body bodyTr package).2) := by
  refine ⟨by simp [monkey_model], ?_, ?_, ?_, ?_, ?_⟩ <;>
    cases parent_exists <;> cases print_to_file <;> cases skip_install <;>
      simp [monkey_model]

/-- `C8` witness: the theorem applied at a concrete input where the install
command reported success but the package-list query comes back empty: the
run aborts with an `AssertionError` and no later phase ran. -/
theorem monkey_install_verification_spec_witness :
    (monkey_model true false true false true false (Except.ok ()) []
        "com.example").1 = Except.error (PyExc.assertionError "not installed") ∧
    Ev.startLumen ∉ (monkey_model true false true false true false
        (Except.ok ()) [] "com.example").2 :=
  ⟨(monkey_install_verification_spec true true false true (Except.ok ()) []
      "com.example").1,
   (monkey_install_verification_spec true true false true (Except.ok ()) []
      "com.example").2.2.2.1⟩

/-- `C9`: when the timestamped run directory already exists, `monkey()` fails
with an `AssertionError` before creating it and before writing any artifact:
the trace contains no run-directory creation, no log open, no device file, no
install, and no later event at all (at most the creation of the missing
parent directory); when it does not exist, the run directory is freshly
created. -/
theorem monkey_run_dir_spec (parent_exists run_exists print_to_file
    skip_install install_ok pkg_installed : Bool) (body : Except PyExc Unit)
    (bodyTr : List Ev) (package : String) :
    (run_exists = true →
      (monkey_model parent_exists run_exists print_to_file skip_install
          install_ok pkg_installed body bodyTr package).1 =
        Except.error (PyExc.assertionError "dir exists") ∧
      (monkey_model parent_exists run_exists print_to_file skip_install
          install_ok pkg_installed body bodyTr package).2 =
        (if parent_exists then ([] : List Ev) else [Ev.mkdirParent])) ∧
    (run_exists = false →
      Ev.mkdirRun ∈ (monkey_model parent_exists run_exists print_to_file
          skip_install install_ok pkg_installed body bodyTr package).2) := by
  constructor
  · intro hr
    subst hr
    exact ⟨by simp [monkey_model], by simp [monkey_model]⟩
  · intro hr
    subst hr
    cases pkg_installed <;>
      cases parent_exists <;> cases print_to_file <;> cases skip_install <;>
        simp [monkey_model]

/-- `C9` witness: the theorem applied at a concrete input where the run
directory already exists: the run aborts with an `AssertionError` and the
trace is empty — no directory reuse, no artifact written. -/
theorem monkey_run_dir_spec_witness :
    (monkey_model true true true false true true (Except.ok ()) []
        "com.example").1 = Except.error (PyExc.assertionError "dir exists") ∧
    (monkey_model true true true false true true (Except.ok ()) []
        "com.example").2 = [] := by
  have h := (monkey_run_dir_spec true true true false true true (Except.ok ())
    [] "com.example").1 rfl
  exact ⟨h.1, by simpa using h.2⟩


/-! ## Screenshot compression (`monkey._compress_pngs`) -/

/-- Python `str.endswith`, modelled on the character list of the string. -/
def strEndsWith (s suffix : String) : Bool := suffix.data.isSuffixOf s.data

/-- Filesystem/archive events of `_compress_pngs`, in program order. -/
inductive TarEv where
  | tarOpen (name : String)   -- `tarfile.open(os.path.join(png_dir, outfile))`
  | tarAdd (name : String)    -- `tar.add(png, arcname=basename(png))`
  | tarClose                  -- `tar.close()`
  | remove (name : String)    -- `os.remove(png)`
  deriving DecidableEq, Repr

/-- `_compress_pngs(png_dir, outfile, delete_pngs)`, with the directory
abstracted as the list of its (base) file names: the archive/delete event
trace.  `os.listdir` yields base names; `tar.add` stores each file under
`os.path.basename`, i.e. its base name again. -/
def compress_pngs_events (files : List String) (outfile : String)
    (delete_pngs : Bool) : List TarEv :=
  let png_files := files.filter (fun x => strEndsWith x ".png")
  (if png_files.length > 0 then
    [TarEv.tarOpen outfile] ++ png_files.map TarEv.tarAdd ++ [TarEv.tarClose]
  else []) ++
  (if delete_pngs then png_files.map TarEv.remove else [])

/-- The directory contents after `_compress_pngs`: the archive is added when
at least one screenshot exists, and the deletion loop removes exactly the
screenshot files collected before archiving. -/
def compress_pngs_dir (files : List String) (outfile : String)
    (delete_pngs : Bool) : List String :=
  let png_files := files.filter (fun x => strEndsWith x ".png")
  let files1 := if png_files.length > 0 then files ++ [outfile] else files
  if delete_pngs then files1.filter (fun x => decide (x ∉ png_files))
  else files1

/-- Names added to the archive by an event. -/
def tarAddName : TarEv → Option String
  | .tarAdd n => some n
  | _ => none

/-- Whether an event opens an archive. -/
def TarEv.isOpen : TarEv → Bool
  | .tarOpen _ => true
  | _ => false

lemma filterMap_tarAddName_map_tarAdd (l : List String) :
    l.filterMap (tarAddName ∘ TarEv.tarAdd) = l := by
  induction l with
  | nil => rfl
  | cons a l ih => simp [tarAddName, Function.comp, ih]

lemma filterMap_tarAddName_map_remove (l : List String) :
    l.filterMap (tarAddName ∘ TarEv.remove) = [] := by
  induction l with
  | nil => rfl
  | cons a l ih => simp [tarAddName, Function.comp, ih]

/-- `C4`: for a run directory holding `N` screenshot (`.png`) files, the
archive is opened exactly once and receives exactly the `N` screenshots under
their base names; every deletion happens strictly after `tar.close()`, so the
originals are removed only after the archive was successfully written; with
deletion enabled no screenshot file remains afterwards (the archive name does
not end in `.png`); and with `N = 0` no archive is produced and nothing
happens at all. -/
theorem compress_pngs_spec (files : List String) (outfile : String)
    (hout : strEndsWith outfile ".png" = false) :
    (∀ d : Bool, (compress_pngs_events files outfile d).countP TarEv.isOpen =
      (if (files.filter (fun x => strEndsWith x ".png")).length > 0 then 1
       else 0)) ∧
    (∀ d : Bool, (compress_pngs_events files outfile d).filterMap tarAddName =
      files.filter (fun x => strEndsWith x ".png")) ∧
    (∀ i p, (compress_pngs_events files outfile true).get? i =
        some (TarEv.remove p) →
      ∃ j, j < i ∧
        (compress_pngs_events files outfile true).get? j =
          some TarEv.tarClose) ∧
    (∀ x, x ∈ compress_pngs_dir files outfile true →
      strEndsWith x ".png" = false) ∧
    (files.filter (fun x => strEndsWith x ".png") = [] →
      (∀ d : Bool, compress_pngs_events files outfile d = []) ∧
      ∀ d : Bool, compress_pngs_dir files outfile d = files) := by
  have hclose : ∀ e ∈ [TarEv.tarOpen outfile] ++
      (files.filter (fun x => strEndsWith x ".png")).map TarEv.tarAdd ++
      [TarEv.tarClose], ∀ q, e ≠ TarEv.remove q := by
    intro e he q
    simp only [List.append_assoc, List.mem_append, List.mem_singleton,
      List.mem_map] at he
    rcases he with he | ⟨x, _, he⟩ | he <;> subst he <;> simp
  refine ⟨?_, ?_, ?_, ?_, ?_⟩
  · intro d
    by_cases h : (files.filter (fun x => strEndsWith x ".png")).length > 0 <;>
      cases d <;>
      simp [compress_pngs_events, h, List.countP_append, List.countP_map,
        TarEv.isOpen, List.countP_eq_zero, Function.comp]
  · intro d
    by_cases h : (files.filter (fun x => strEndsWith x ".png")).length > 0
    · cases d <;>
        simp [compress_pngs_events, h, List.filterMap_append, tarAddName,
          filterMap_tarAddName_map_tarAdd, filterMap_tarAddName_map_remove]
    · have h0 : files.filter (fun x => strEndsWith x ".png") = [] := by
        rw [← List.length_eq_zero]
        omega
      cases d <;> simp [compress_pngs_events, h0]
  · intro i p hp
    by_cases h : (files.filter (fun x => strEndsWith x ".png")).length > 0
    · have htr : compress_pngs_events files outfile true =
          ([TarEv.tarOpen outfile] ++
            (files.filter (fun x => strEndsWith x ".png")).map TarEv.tarAdd ++
            [TarEv.tarClose]) ++
          (files.filter (fun x => strEndsWith x ".png")).map TarEv.remove := by
        simp [compress_pngs_events, h]
    -- the removal index lies past the whole archive-writing prefix
      rw [htr] at hp
      have hAlen : ([TarEv.tarOpen outfile] ++
          (files.filter (fun x => strEndsWith x ".png")).map TarEv.tarAdd ++
          [TarEv.tarClose]).length =
          (files.filter (fun x => strEndsWith x ".png")).length + 2 := by
        simp
      have hiA : ([TarEv.tarOpen outfile] ++
          (files.filter (fun x => strEndsWith x ".png")).map TarEv.tarAdd ++
          [TarEv.tarClose]).length ≤ i := by
        by_contra hlt
        push_neg at hlt
        rw [List.get?_append hlt] at hp
        exact hclose _ (List.get?_mem hp) p rfl
      refine ⟨(files.filter (fun x => strEndsWith x ".png")).length + 1,
        by omega, ?_⟩
      rw [htr, List.get?_append (by omega), List.append_assoc,
        List.get?_append_right (by simp), List.get?_append_right (by simp)]
      simp
    · have h0 : files.filter (fun x => strEndsWith x ".png") = [] := by
        rw [← List.length_eq_zero]
        omega
      simp [compress_pngs_events, h0] at hp
  · intro x hx
    rw [compress_pngs_dir] at hx
    simp only [if_pos, if_true] at hx
    have hx' := List.mem_filter.1 hx
    rcases hx' with ⟨hx1, hx2⟩
    rw [decide_eq_true_iff] at hx2
    cases hpb : strEndsWith x ".png"
    · rfl
    · exfalso
      have hxf : x ∈ files := by
        by_cases h : (files.filter (fun y => strEndsWith y ".png")).length > 0
        · rw [if_pos h] at hx1
          rcases List.mem_append.1 hx1 with h1 | h1
          · exact h1
          · rw [List.mem_singleton] at h1
            subst h1
            rw [hpb] at hout
            exact Bool.noConfusion hout
        · rwa [if_neg h] at hx1
      exact hx2 (List.mem_filter.2 ⟨hxf, hpb⟩)
  · intro h0
    constructor
    · intro d
      cases d <;> simp [compress_pngs_events, h0]
    · intro d
      cases d <;> simp [compress_pngs_dir, h0]

/-- `C4` witness: the theorem applied at a concrete directory with two
screenshots: both are archived under their base names, and no screenshot file
survives deletion. -/
theorem compress_pngs_spec_witness :
    (compress_pngs_events ["a.png", "b.png", "run.log"] "screens.tar.bz2"
        true).filterMap tarAddName = ["a.png", "b.png"] ∧
    (∀ x, x ∈ compress_pngs_dir ["a.png", "b.png", "run.log"]
        "screens.tar.bz2" true → strEndsWith x ".png" = false) := by
  have h := compress_pngs_spec ["a.png", "b.png", "run.log"] "screens.tar.bz2"
    (by decide)
  refine ⟨?_, h.2.2.2.1⟩
  have h2 := h.2.1 true
  rw [h2]
  decide


/-! ## The battery charge gate (`monkey._check_charge`,
`sdk.adb_battery_level`) -/

/-- Observable events of `_check_charge`: turning the screen off, one
fixed-interval wait (with the battery level printed for it), turning the
screen back on. -/
inductive ChargeEv where
  | screenOff
  | pollWait (level : Nat)
  | screenOn
  deriving DecidableEq, Repr

/-- The `while(charge < charge_to)` polling loop of `_check_charge`:
`levels k` is the `k`-th reading of `sdk.adb_battery_level()` (reading 0
happened before the loop), `i` is the index of the most recent reading, and
`fuel` bounds the number of iterations we unfold (`none` = fuel exhausted;
the source loop is unbounded). -/
def charge_loop (levels : Nat → Nat) (charge_to : Nat) :
    Nat → Nat → Option (List ChargeEv)
  | i, 0 => if levels i < charge_to then none else some []
  | i, fuel + 1 =>
    if levels i < charge_to then
      (charge_loop levels charge_to (i + 1) fuel).map
        (fun tr => ChargeEv.pollWait (levels i) :: tr)
    else some []

/-- `_check_charge(mincharge, charge_to=90)`: read the battery level; if it
is below `mincharge`, turn the screen off, poll until the level reaches
`charge_to`, and turn the screen back on; otherwise do nothing. -/
def check_charge (levels : Nat → Nat) (mincharge charge_to fuel : Nat) :
    Option (List ChargeEv) :=
  if levels 0 < mincharge then
    (charge_loop levels charge_to 0 fuel).map
      (fun tr => ChargeEv.screenOff :: (tr ++ [ChargeEv.screenOn]))
  else some []

lemma charge_loop_sound (levels : Nat → Nat) (charge_to : Nat) :
    ∀ (fuel i : Nat) (tr : List ChargeEv),
      charge_loop levels charge_to i fuel = some tr →
      ∃ n, i ≤ n ∧ n - i ≤ fuel ∧ charge_to ≤ levels n ∧
        (∀ j, i ≤ j → j < n → levels j < charge_to) ∧
        tr = (List.range' i (n - i)).map (fun j => ChargeEv.pollWait (levels j)) := by
  intro fuel
  induction fuel with
  | zero =>
    intro i tr h
    rw [charge_loop] at h
    by_cases hc : levels i < charge_to
    · simp [hc] at h
    · simp [hc] at h
      exact ⟨i, le_refl i, by omega, by omega, by omega, by simp [← h]⟩
  | succ fuel ih =>
    intro i tr h
    rw [charge_loop] at h
    by_cases hc : levels i < charge_to
    · rw [if_pos hc] at h
      rcases Option.map_eq_some'.1 h with ⟨tr', htr', rfl⟩
      rcases ih (i + 1) tr' htr' with ⟨n, hn1, hn2, hn3, hn4, hn5⟩
      refine ⟨n, by omega, by omega, hn3, ?_, ?_⟩
      · intro j hj1 hj2
        rcases Nat.eq_or_lt_of_le hj1 with hj | hj
        · subst hj; exact hc
        · exact hn4 j (by omega) hj2
      · have hrange : List.range' i (n - i) = i :: List.range' (i + 1) (n - (i + 1)) := by
          have : n - i = (n - (i + 1)) + 1 := by omega
          rw [this, List.range'_succ]
        rw [hrange]
        simp [hn5]
    · rw [if_neg hc] at h
      exact ⟨i, le_refl i, by omega, by omega, by omega, by
        simp [← Option.some_inj.1 h]⟩

/-- `C5`: if the first battery reading is at or above `mincharge`, nothing
happens at all (no screen toggling, no polling).  If it is below `mincharge`
and the polling loop terminates within the unfolded fuel, then there is an
`n` such that readings `0..n-1` were all below the target `charge_to`
(default 90), reading `n` is the first at or above it, and the event trace is
exactly: screen off, one fixed-interval wait per below-target reading, screen
back on — so the screen comes back on only once the level reached the
target. -/
theorem check_charge_spec (levels : Nat → Nat) (mincharge charge_to fuel : Nat) :
    (mincharge ≤ levels 0 → check_charge levels mincharge charge_to fuel = some []) ∧
    (levels 0 < mincharge → ∀ tr,
      check_charge levels mincharge charge_to fuel = some tr →
      ∃ n, n ≤ fuel ∧ charge_to ≤ levels n ∧
        (∀ j, j < n → levels j < charge_to) ∧
        tr = ChargeEv.screenOff ::
          ((List.range n).map (fun j => ChargeEv.pollWait (levels j)) ++
            [ChargeEv.screenOn])) := by
  constructor
  · intro h
    rw [check_charge, if_neg (by omega)]
  · intro h tr htr
    rw [check_charge, if_pos h] at htr
    rcases Option.map_eq_some'.1 htr with ⟨tr', htr', rfl⟩
    rcases charge_loop_sound levels charge_to fuel 0 tr' htr' with
      ⟨n, _, hn2, hn3, hn4, hn5⟩
    refine ⟨n, by omega, hn3, fun j hj => hn4 j (by omega) hj, ?_⟩
    rw [hn5]
    simp [List.range_eq_range']

/-- `C5` witness: the theorem applied at concrete readings 3, 50, 95 with
mincharge 5 and the default target 90: the screen goes off, two waits happen
at levels 3 and 50, and the screen comes back on at level 95 ≥ 90. -/
theorem check_charge_spec_witness :
    ∃ n, n ≤ 5 ∧
      90 ≤ (fun k => if k = 0 then 3 else if k = 1 then 50 else 95) n ∧
      (∀ j, j < n →
        (fun k => if k = 0 then 3 else if k = 1 then 50 else 95) j < 90) ∧
      [ChargeEv.screenOff, ChargeEv.pollWait 3, ChargeEv.pollWait 50,
        ChargeEv.screenOn] = ChargeEv.screenOff ::
          ((List.range n).map (fun j => ChargeEv.pollWait
            ((fun k => if k = 0 then 3 else if k = 1 then 50 else 95) j)) ++
            [ChargeEv.screenOn]) :=
  (check_charge_spec (fun k => if k = 0 then 3 else if k = 1 then 50 else 95)
      5 90 5).2 (by decide)
    [ChargeEv.screenOff, ChargeEv.pollWait 3, ChargeEv.pollWait 50,
      ChargeEv.screenOn] (by decide)


/-! ## Queue-mode orchestration (`monkey._db_run`) -/

/-- `_db_run(config, dbcreds, apk_root, outdir)` after the queue entry has
been fetched: `apk_exists` is whether the application package file is present
under the apk root, and `runRes` the outcome of `monkey(...)`.  Returns the
ordered list of status codes written through
`dbops.update_app_run_status(package_name, ·)` and the exception (if any)
that propagates out of `_db_run`. -/
def db_run (apk_exists : Bool) (runRes : Except PyExc Unit) :
    List Int × Option PyExc :=
  if apk_exists then
    match runRes with
    | Except.ok _ => ([1, 2], none)          -- RUNNING, then DONE
    | Except.error _ => ([1, -1], none)      -- RUNNING, then FAILED (caught)
  else
    -- FAILED, then the `assert os.path.isfile(apk)` raises
    ([-1], some (PyExc.assertionError "apk missing"))

/-- `C6`: for every queue entry, exactly one terminal status (DONE = 2 or
FAILED = −1) is written; when the package file exists the first status
written is RUNNING = 1 (set before the run starts), followed by DONE exactly
when the run completed normally and by FAILED exactly when it raised (any
`Exception` is caught); when the package file is missing, FAILED is written. -/
theorem db_run_spec (apk_exists : Bool) (runRes : Except PyExc Unit) :
    ((db_run apk_exists runRes).1.count 2 +
      (db_run apk_exists runRes).1.count (-1) = 1) ∧
    (apk_exists = true →
      (db_run apk_exists runRes).1.head? = some 1) ∧
    (apk_exists = true → runRes = Except.ok () →
      (db_run apk_exists runRes).1 = [1, 2]) ∧
    (apk_exists = true → ∀ e, runRes = Except.error e →
      (db_run apk_exists runRes).1 = [1, -1] ∧
      (db_run apk_exists runRes).2 = none) ∧
    (apk_exists = false →
      (db_run apk_exists runRes).1 = [-1]) := by
  cases apk_exists <;> cases runRes <;>
    simp [db_run, List.count_cons, List.count_nil]

/-- `C6` witness: the theorem applied at a run that raised: the statuses
written are RUNNING then FAILED and nothing propagates. -/
theorem db_run_spec_witness :
    (db_run true (Except.error (PyExc.calledProcessError "adb died"))).1 =
      [1, -1] ∧
    (db_run true (Except.error (PyExc.calledProcessError "adb died"))).2 =
      none :=
  (db_run_spec true (Except.error (PyExc.calledProcessError "adb died"))).2.2.2.1
    rfl (PyExc.calledProcessError "adb died") rfl

/-! ## Boot waiting (`sdk.adb_wait_boot`) -/

/-- The `while(not (adb_isconnected() and adb_isbooted()))` loop of
`adb_wait_boot`: `conn t` / `booted t` are the probe results at tick `t`
(one loop iteration per tick; the fixed 2-second sleep is one tick), `dl` is
the current deadline (`end_time`) and `timeout` the configured
`timeout_secs`.  Returns the tick at which the loop exits (`none` when the
unfolded fuel runs out — the source loop is unbounded) together with the
ticks at which the reboot command was re-issued. -/
def wait_boot_go (conn booted : Nat → Bool) (timeout : Nat) :
    Nat → Nat → Nat → Option Nat × List Nat
  | 0, _, _ => (none, [])
  | fuel + 1, t, dl =>
    if conn t && booted t then (some t, [])
    else if dl < t && conn t then
      -- re-issue `adb_shell('reboot')` and restart the deadline
      let r := wait_boot_go conn booted timeout fuel (t + 1) (t + timeout)
      (r.1, t :: r.2)
    else
      wait_boot_go conn booted timeout fuel (t + 1) dl

/-- `adb_wait_boot(timeout_secs)`: the loop starts at tick 0 with deadline
`end_time = now + timeout`. -/
def adb_wait_boot (conn booted : Nat → Bool) (timeout fuel : Nat) :
    Option Nat × List Nat :=
  wait_boot_go conn booted timeout fuel 0 timeout

lemma wait_boot_go_returns_booted (conn booted : Nat → Bool) (timeout : Nat) :
    ∀ (fuel t dl u : Nat),
      (wait_boot_go conn booted timeout fuel t dl).1 = some u →
      conn u = true ∧ booted u = true := by
  intro fuel
  induction fuel with
  | zero => intro t dl u h; simp [wait_boot_go] at h
  | succ fuel ih =>
    intro t dl u h
    rw [wait_boot_go] at h
    by_cases h1 : conn t && booted t
    · rw [if_pos h1] at h
      simp only [Option.some_inj] at h
      subst h
      simpa using h1
    · rw [if_neg h1] at h
      by_cases h2 : dl < t && conn t
      · rw [if_pos h2] at h
        exact ih (t + 1) (t + timeout) u h
      · rw [if_neg h2] at h
        exact ih (t + 1) dl u h

lemma wait_boot_go_never_returns (conn booted : Nat → Bool) (timeout : Nat)
    (hnever : ∀ t, (conn t && booted t) = false) :
    ∀ (fuel t dl : Nat),
      (wait_boot_go conn booted timeout fuel t dl).1 = none := by
  intro fuel
  induction fuel with
  | zero => intro t dl; simp [wait_boot_go]
  | succ fuel ih =>
    intro t dl
    rw [wait_boot_go]
    rw [if_neg (by simp [hnever t])]
    by_cases h2 : dl < t && conn t
    · rw [if_pos h2]
      exact ih (t + 1) (t + timeout)
    · rw [if_neg h2]
      exact ih (t + 1) dl

lemma wait_boot_go_reboots (conn booted : Nat → Bool) (timeout : Nat) :
    ∀ (fuel t dl : Nat), dl ≥ timeout →
      ∀ u ∈ (wait_boot_go conn booted timeout fuel t dl).2,
        dl < u ∧ conn u = true ∧ booted u = false ∧
        ∀ v ∈ (wait_boot_go conn booted timeout fuel t dl).2,
          u < v → u + timeout < v := by
  intro fuel
  induction fuel with
  | zero => intro t dl _ u hu; simp [wait_boot_go] at hu
  | succ fuel ih =>
    intro t dl hdl u hu
    rw [wait_boot_go] at hu ⊢
    by_cases h1 : conn t && booted t
    · rw [if_pos h1] at hu
      simp at hu
    · rw [if_neg h1] at hu ⊢
      by_cases h2 : dl < t && conn t
      · rw [if_pos h2] at hu ⊢
        simp only [List.mem_cons] at hu
        have h2' : dl < t ∧ conn t = true := by simpa using h2
        rcases h2' with ⟨h2a, h2b⟩
        have hbooted : booted t = false := by
          cases hb : booted t
          · rfl
          · rw [h2b, hb] at h1; simp at h1
        rcases hu with rfl | hu
        · refine ⟨h2a, h2b, hbooted, ?_⟩
          intro v hv _
          simp only [List.mem_cons] at hv
          rcases hv with rfl | hv
          · omega
          · have := ih (u + 1) (u + timeout) (by omega) v hv
            omega
        · have := ih (t + 1) (t + timeout) (by omega) u hu
          refine ⟨by omega, this.2.1, this.2.2.1, ?_⟩
          intro v hv huv
          simp only [List.mem_cons] at hv
          rcases hv with rfl | hv
          · have := this.1; omega
          · exact this.2.2.2 v hv huv
      · rw [if_neg h2] at hu ⊢
        exact ih (t + 1) dl hdl u hu

lemma wait_boot_go_complete (conn booted : Nat → Bool) (timeout : Nat) :
    ∀ (fuel t dl u : Nat), t ≤ u → u < t + fuel →
      conn u = true →
      (∀ v, t ≤ v → v ≤ u → (conn v && booted v) = false) →
      (∀ r ∈ (wait_boot_go conn booted timeout fuel t dl).2,
        r < u → r + timeout < u) →
      dl < u →
      u ∈ (wait_boot_go conn booted timeout fuel t dl).2 := by
  intro fuel
  induction fuel with
  | zero =>
    intro t dl u h1 h2 _ _ _ _
    exact absurd h2 (by omega)
  | succ fuel ih =>
    intro t dl u h1 h2 hconn hactive hrb hdl
    rw [wait_boot_go] at hrb ⊢
    by_cases hb : conn t && booted t
    · have hf := hactive t (le_refl t) h1
      rw [hf] at hb
      exact absurd hb (by simp)
    · rw [if_neg hb] at hrb ⊢
      by_cases hr : dl < t && conn t
      · rw [if_pos hr] at hrb ⊢
        simp only [List.mem_cons] at hrb ⊢
        rcases Nat.eq_or_lt_of_le h1 with heq | hlt
        · exact Or.inl heq.symm
        · have hrt : t + timeout < u := hrb t (Or.inl rfl) hlt
          exact Or.inr (ih (t + 1) (t + timeout) u (by omega) (by omega) hconn
            (fun v hv1 hv2 => hactive v (by omega) hv2)
            (fun r hrm hru => hrb r (Or.inr hrm) hru)
            (by omega))
      · rw [if_neg hr] at hrb ⊢
        have hne : t ≠ u := by
          intro heq
          subst heq
          exact hr (by simp [hconn, hdl])
        exact ih (t + 1) dl u (by omega) (by omega) hconn
          (fun v hv1 hv2 => hactive v (by omega) hv2) hrb hdl

/-- `C7`: `waitBooted` returns only at a tick where the device is both
connected and booted (in particular it never returns while the device is not
booted); if the device never reaches connected-and-booted, it never returns,
however far the loop is unfolded (unbounded looping by design); every
re-issued reboot happens at a tick past the current deadline while the
device is connected but not booted, the first one only after the initial
`timeout`-long deadline, and after each reboot the deadline restarts, so two
reboots are always more than `timeout` ticks apart; and conversely, whenever
the current deadline has elapsed at an in-fuel tick — the tick is past the
initial deadline and past the restarted deadline of every earlier reboot —
while the loop is still running and the device is connected, the reboot
command IS re-issued at that very tick. -/
theorem adb_wait_boot_spec (conn booted : Nat → Bool) (timeout fuel : Nat) :
    (∀ u, (adb_wait_boot conn booted timeout fuel).1 = some u →
      conn u = true ∧ booted u = true) ∧
    ((∀ t, (conn t && booted t) = false) →
      (adb_wait_boot conn booted timeout fuel).1 = none) ∧
    (∀ u ∈ (adb_wait_boot conn booted timeout fuel).2,
      timeout < u ∧ conn u = true ∧ booted u = false) ∧
    (∀ u ∈ (adb_wait_boot conn booted timeout fuel).2,
      ∀ v ∈ (adb_wait_boot conn booted timeout fuel).2,
        u < v → u + timeout < v) ∧
    (∀ u, u < fuel → conn u = true →
      (∀ v, v ≤ u → (conn v && booted v) = false) →
      timeout < u →
      (∀ r ∈ (adb_wait_boot conn booted timeout fuel).2,
        r < u → r + timeout < u) →
      u ∈ (adb_wait_boot conn booted timeout fuel).2) := by
  refine ⟨?_, ?_, ?_, ?_, ?_⟩
  · intro u h
    exact wait_boot_go_returns_booted conn booted timeout fuel 0 timeout u h
  · intro hnever
    exact wait_boot_go_never_returns conn booted timeout hnever fuel 0 timeout
  · intro u hu
    have := wait_boot_go_reboots conn booted timeout fuel 0 timeout
      (le_refl timeout) u hu
    exact ⟨this.1, this.2.1, this.2.2.1⟩
  · intro u hu v hv huv
    exact (wait_boot_go_reboots conn booted timeout fuel 0 timeout
      (le_refl timeout) u hu).2.2.2 v hv huv
  · intro u h1 h2 h3 h4 h5
    exact wait_boot_go_complete conn booted timeout fuel 0 timeout u
      (Nat.zero_le u) (by omega) h2 (fun v _ hv2 => h3 v hv2) h5 h4

/-- `C7` witness: the theorem applied at concrete devices with
`timeout = 2`: one that connects immediately and boots at tick 3 — the loop
returns at tick 3, where the device is connected and booted; and one that is
connected but never boots — at tick 3 the initial deadline (2) has elapsed
with no earlier reboot, so the reboot is re-issued exactly there. -/
theorem adb_wait_boot_spec_witness :
    ((fun _ : Nat => true) 3 = true ∧
      (fun t : Nat => decide (3 ≤ t)) 3 = true) ∧
    3 ∈ (adb_wait_boot (fun _ => true) (fun _ => false) 2 10).2 :=
  ⟨(adb_wait_boot_spec (fun _ => true) (fun t => decide (3 ≤ t)) 2 10).1 3
      (by decide),
    (adb_wait_boot_spec (fun _ => true) (fun _ => false) 2 10).2.2.2.2 3
      (by decide) rfl (fun v _ => rfl) (by decide) (by decide)⟩


/-! ## Package-metadata extraction and its cache (`sdk.aapt_badging`,
`sdk.aapt_permissions`, `sdk.aapt_package`, `sdk.aapt_version_code`) -/

/-- Python `str.startswith`, modelled on the character list of the string. -/
def strStartsWith (s pre : String) : Bool := pre.data.isPrefixOf s.data

/-- Python `str.strip("'")` : remove leading and trailing apostrophes
(character code 39). -/
def pyStripQuote (s : String) : String :=
  String.mk (((s.data.dropWhile (fun c => c = Char.ofNat 39)).reverse.dropWhile
    (fun c => c = Char.ofNat 39)).reverse)

/-- The parsing done by `aapt_permissions` on a badging output: keep the
`uses-permission:` lines and strip each down to the quoted permission name.
(Python indexes `split('name=')[1]`, which raises on a line without `name=`;
badging output always carries it, and the cached/uncached comparison is
unaffected by the default used here.) -/
def aapt_permissions_parse (output : String) : List String :=
  ((output.splitOn "\n").filter
    (fun x => strStartsWith x "uses-permission:")).map
    (fun x => pyStripQuote ((x.splitOn "name=").getD 1 ""))

/-- The parsing done by `aapt_package`: exactly one line must start with
`package: name=` (otherwise the `assert` raises), and the package id is cut
out of it. -/
def aapt_package_parse (output : String) : Except String String :=
  let pkg := (output.splitOn "\n").filter
    (fun x => strStartsWith x "package: name=")
  if pkg.length = 1 then
    Except.ok (pyStripQuote (((((pkg.getD 0 "").splitOn "name=").getD 1
      "").splitOn " versionCode=").getD 0 ""))
  else Except.error "package line count is not 1"

/-- The parsing done by `aapt_version_code`, analogous to
`aapt_package_parse`. -/
def aapt_version_code_parse (output : String) : Except String String :=
  let pkg := (output.splitOn "\n").filter
    (fun x => strStartsWith x "package: name=")
  if pkg.length = 1 then
    Except.ok (pyStripQuote (((((pkg.getD 0 "").splitOn "versionCode=").getD 1
      "").splitOn " versionName=").getD 0 ""))
  else Except.error "package line count is not 1"

/-- The two module-level globals `last_badging_apk` and `last_badging`. -/
structure BadgingCache where
  last_badging_apk : Option String
  last_badging : Option String
  deriving DecidableEq, Repr

/-- `aapt_badging(apk_file)`: invoke `aapt d badging` (the oracle — aapt is
deterministic for a fixed file) only when the cache is empty or holds a
different path; otherwise return the cached output.  Returns the (possibly
cached) output, the new globals, and how many external invocations were
made. -/
def aapt_badging (oracle : String → String) (st : BadgingCache)
    (apk_file : String) : Option String × BadgingCache × Nat :=
  match st.last_badging_apk with
  | none => (some (oracle apk_file), ⟨some apk_file, some (oracle apk_file)⟩, 1)
  | some last =>
    if apk_file ≠ last then
      (some (oracle apk_file), ⟨some apk_file, some (oracle apk_file)⟩, 1)
    else
      (st.last_badging, st, 0)

/-- The uncached variant the claim compares against: always invoke the
external badging command (one invocation per call). -/
def aapt_badging_uncached (oracle : String → String) (apk_file : String) :
    String × Nat :=
  (oracle apk_file, 1)

/-- `aapt_permissions(apk_file)` on top of the cache. -/
def aapt_permissions (oracle : String → String) (st : BadgingCache)
    (apk_file : String) : List String × BadgingCache × Nat :=
  let r := aapt_badging oracle st apk_file
  (aapt_permissions_parse (r.1.getD ""), r.2.1, r.2.2)

/-- `aapt_package(apk_file)` on top of the cache. -/
def aapt_package (oracle : String → String) (st : BadgingCache)
    (apk_file : String) : Except String String × BadgingCache × Nat :=
  let r := aapt_badging oracle st apk_file
  (aapt_package_parse (r.1.getD ""), r.2.1, r.2.2)

/-- `aapt_version_code(apk_file)` on top of the cache. -/
def aapt_version_code (oracle : String → String) (st : BadgingCache)
    (apk_file : String) : Except String String × BadgingCache × Nat :=
  let r := aapt_badging oracle st apk_file
  (aapt_version_code_parse (r.1.getD ""), r.2.1, r.2.2)

/-- Reachable cache states: either both globals are still `None`, or they
hold a path together with exactly the badging output for that path. -/
def BadgingCacheWF (oracle : String → String) (st : BadgingCache) : Prop :=
  (st.last_badging_apk = none ∧ st.last_badging = none) ∨
  (∃ a, st.last_badging_apk = some a ∧ st.last_badging = some (oracle a))

/-- `C10`: on every reachable cache state, `aapt_badging` returns the same
output as the uncached always-invoking version and invokes the external
command exactly when the queried path differs from the most recently queried
one (0 invocations on a hit, 1 on a miss); the new state caches the queried
path and stays reachable; an immediately repeated call on the same path makes
no further invocation and returns the same output; and `aapt_package`,
`aapt_version_code` and `aapt_permissions` each return exactly what their
parsing yields on the uncached badging output. -/
theorem aapt_badging_cache_spec (oracle : String → String) (st : BadgingCache)
    (apk_file : String) (hwf : BadgingCacheWF oracle st) :
    ((aapt_badging oracle st apk_file).1 =
      some (aapt_badging_uncached oracle apk_file).1) ∧
    ((aapt_badging oracle st apk_file).2.2 =
      if st.last_badging_apk = some apk_file then 0 else 1) ∧
    ((aapt_badging oracle st apk_file).2.1.last_badging_apk = some apk_file) ∧
    BadgingCacheWF oracle (aapt_badging oracle st apk_file).2.1 ∧
    (aapt_badging oracle (aapt_badging oracle st apk_file).2.1 apk_file =
      (some (oracle apk_file), (aapt_badging oracle st apk_file).2.1, 0)) ∧
    ((aapt_permissions oracle st apk_file).1 =
      aapt_permissions_parse (oracle apk_file)) ∧
    ((aapt_package oracle st apk_file).1 =
      aapt_package_parse (oracle apk_file)) ∧
    ((aapt_version_code oracle st apk_file).1 =
      aapt_version_code_parse (oracle apk_file)) := by
  have hret : (aapt_badging oracle st apk_file).1 = some (oracle apk_file) := by
    rcases hwf with ⟨h1, h2⟩ | ⟨a, h1, h2⟩
    · simp [aapt_badging, h1]
    · rw [aapt_badging, h1]
      by_cases he : apk_file = a
      · subst he
        simp [h2]
      · simp [he]
  refine ⟨?_, ?_, ?_, ?_, ?_, ?_, ?_, ?_⟩
  · simpa [aapt_badging_uncached] using hret
  · rcases hwf with ⟨h1, h2⟩ | ⟨a, h1, h2⟩
    · simp [aapt_badging, h1]
    · rw [aapt_badging, h1]
      by_cases he : apk_file = a
      · subst he; simp
      · simp [he, Ne.symm he]
  · rcases hwf with ⟨h1, h2⟩ | ⟨a, h1, h2⟩
    · simp [aapt_badging, h1]
    · rw [aapt_badging, h1]
      by_cases he : apk_file = a
      · subst he; simp [h1]
      · simp [he]
  · rcases hwf with ⟨h1, h2⟩ | ⟨a, h1, h2⟩
    · exact Or.inr ⟨apk_file, by simp [aapt_badging, h1]⟩
    · rw [aapt_badging, h1]
      by_cases he : apk_file = a
      · subst he
        simp only [ne_eq, not_true_eq_false, if_false]
        exact Or.inr ⟨apk_file, h1, h2⟩
      · simp only [ne_eq, he, not_false_eq_true, if_true]
        exact Or.inr ⟨apk_file, rfl, rfl⟩
  · have hapk : (aapt_badging oracle st apk_file).2.1.last_badging_apk =
        some apk_file := by
      rcases hwf with ⟨h1, h2⟩ | ⟨a, h1, h2⟩
      · simp [aapt_badging, h1]
      · rw [aapt_badging, h1]
        by_cases he : apk_file = a
        · subst he; simp [h1]
        · simp [he]
    have hbad : (aapt_badging oracle st apk_file).2.1.last_badging =
        some (oracle apk_file) := by
      rcases hwf with ⟨h1, h2⟩ | ⟨a, h1, h2⟩
      · simp [aapt_badging, h1]
      · rw [aapt_badging, h1]
        by_cases he : apk_file = a
        · subst he; simp [h2]
        · simp [he]
    rw [aapt_badging, hapk]
    simp [hbad]
  · simp [aapt_permissions, hret]
  · simp [aapt_package, hret]
  · simp [aapt_version_code, hret]

/-- `C10` witness: the theorem applied at the empty initial cache: the first
call invokes the command once, and the immediately repeated call on the same
path invokes it zero further times while returning the same output. -/
theorem aapt_badging_cache_spec_witness :
    (aapt_badging (fun _ => "package: name=x") ⟨none, none⟩ "a.apk").2.2 = 1 ∧
    aapt_badging (fun _ => "package: name=x")
        (aapt_badging (fun _ => "package: name=x") ⟨none, none⟩ "a.apk").2.1
        "a.apk" =
      (some "package: name=x",
        (aapt_badging (fun _ => "package: name=x") ⟨none, none⟩
          "a.apk").2.1, 0) := by
  have h := aapt_badging_cache_spec (fun _ => "package: name=x") ⟨none, none⟩
    "a.apk" (Or.inl ⟨rfl, rfl⟩)
  refine ⟨?_, h.2.2.2.2.1⟩
  rw [h.2.1]
  rfl


end Monkey
